import Mathlib

/-!
Shallow embedding of `demo.c` from the petalinuxaxidma repository.

The program is a two-thread AXI DMA demo: `main` parses options, acquires a
DMA device handle, issues a fixed sequence of three blocking sends from a
pre-filled staging buffer, spawns and detaches a receive thread
(`rapidio_taks_rec`), and cleans up.  The receive thread repeats the same
setup (including its own `axidma_init`) and then loops forever, reading and
hex-dumping inbound data.

The external AXI DMA library (`axidma_init`, `axidma0send`, `axidma0read`,
channel queries) is modelled as an environment `DmaEnv` describing the
results it returns; each thread is embedded as a function producing its exit
code and an ordered trace of observable events.
-/

namespace AxiDmaDemo

/-- errno `EINVAL`, negated by `parse_args` on validation failure. -/
def EINVAL : Int := 22

/-- errno `ENODEV`, negated by `main` when a channel set is empty. -/
def ENODEV : Int := 19

/-- One option occurrence as consumed by the getopt loop of `parse_args`
(optstring `"t:r:s:o:h"`, demo.c lines 98-152).  The value field carries the
result of `parse_int` (for `-t`, `-r`, `-s`) or of `MIB_TO_BYTE` applied to
`parse_double`'s result (for `-o`); `none` stands for a malformed option
argument.  Modelled from the spec: `parse_int` / `parse_double` /
`MIB_TO_BYTE` live in `util.c` / `conversion.h`, which are absent from this
snapshot; the spec only requires that a malformed numeric argument aborts
with a negative errno-style code after printing usage. -/
inductive CmdArg where
  | optT (v : Option Int)
  | optR (v : Option Int)
  | optS (v : Option Int)
  | optO (v : Option Int)
  | optH
  | unknownOpt
  deriving DecidableEq

/-- The locals of `parse_args` after the defaults are set
(demo.c lines 90-96). -/
structure ArgState where
  input_channel : Int
  output_channel : Int
  output_size : Int
  o_specified : Bool
  s_specified : Bool
  deriving DecidableEq

/-- Usage line printed by `print_usage` (demo.c lines 52-54). -/
def usageMsg : String :=
  "Usage: axidma_transfer  [-t <DMA tx channel>] [-r <DMA rx channel>] [-s <Output file size> | -o <Output file size>].\n"

/-- Help lines printed by `print_usage true` (demo.c lines 63-76). -/
def helpLines : List String :=
  ["\t-t <DMA tx channel>:\tThe device id of the DMA channel to use for transmitting the file. Default is to use the lowest numbered channel available.\n",
   "\t-r <DMA rx channel>:\tThe device id of the DMA channel to use for receiving the data from the PL fabric. Default is to use the lowest numbered channel available.\n",
   "\t-s <Output file size>:\tThe size of the output file in bytes. This is an integer value that must be at least the number of bytes received back. By default, this is the same as the size of the input file.\n",
   "\t-o <Output file size>:\tThe size of the output file in Mibs. This is a floating-point value that must be at least the number of bytes received back. By default, this is the same the size of the input file.\n"]

/-- Diagnostic of the `-t`/`-r` pairing check (demo.c lines 156-157). -/
def pairErrMsg : String :=
  "Error: Either both -t and -r must be specified, or neither.\n"

/-- Diagnostic of the `-s`/`-o` exclusivity check (demo.c line 164). -/
def exclErrMsg : String :=
  "Error: Only one of -s and -o can be specified.\n"

/-- Diagnostic of the trailing-argument check (demo.c line 178). -/
def tooManyErrMsg : String :=
  "Error: Too many command line arguments.\n"

/-- Diagnostic printed when `axidma_init` returns NULL (demo.c line 224/336). -/
def initFailMsg : String :=
  "Error: Failed to initialize the AXI DMA device.\n"

/-- Success line printed after device init (demo.c line 228/340). -/
def initOkMsg : String := "Succeed to initialize the AXI DMA device.\n"

/-- Diagnostic for an empty transmit channel set (demo.c line 245/357). -/
def noTxMsg : String := "Error: No transmit channels were found.\n"

/-- Diagnostic for an empty receive channel set (demo.c line 254/366). -/
def noRxMsg : String := "Error: No receive channels were found.\n"

/-- Stands for the two float-formatted size lines of the transfer summary
(demo.c lines 381-382); their floating-point rendering is outside this
integer model and no claim inspects them. -/
def sizesMsg : String := "\tInput Data Size and Output Data Size\n"

/-- Result of `parse_args`: a normal return with the three out-parameters,
an error return (negative code, diagnostics written to stderr in order), or
the `-h` path, which prints usage plus help to stdout and exits the process
with status 0 (demo.c lines 144-146). -/
inductive ParseOutcome where
  | ok (input_channel output_channel output_size : Int)
  | err (rc : Int) (stderrLines : List String)
  | helpExit (stdoutLines : List String)
  deriving DecidableEq

/-- Modelled from the spec: the negative return of `parse_int` /
`parse_double` on malformed input (`util.c` is absent from the snapshot);
the spec only requires a generic negative invalid-argument signal. -/
def parseFailRc : Int := -EINVAL

/-- The validation checks run after the getopt loop (demo.c lines 154-186).
`npos` is the number of unconsumed trailing arguments, i.e. `argc - optind`;
the source condition `optind < argc - 2` is exactly `2 < npos`. -/
def endCheck (npos : Nat) (st : ArgState) : ParseOutcome :=
  if Bool.xor (st.input_channel == -1) (st.output_channel == -1) then
    .err (-EINVAL) [pairErrMsg, usageMsg]
  else if st.s_specified && st.o_specified then
    .err (-EINVAL) [exclErrMsg, usageMsg]
  else if 2 < npos then
    .err (-EINVAL) [tooManyErrMsg, usageMsg]
  else
    .ok st.input_channel st.output_channel st.output_size

/-- The getopt dispatch loop of `parse_args` (demo.c lines 98-152): each
recognized option overwrites its out-parameter (`-s`/`-o` also set their
flag), a malformed value aborts with usage on stderr, `-h` prints help on
stdout and exits 0, and an unrecognized option returns `-EINVAL`. -/
def parse_args_go (npos : Nat) : List CmdArg → ArgState → ParseOutcome
  | [], st => endCheck npos st
  | .optT none :: _, _ => .err parseFailRc [usageMsg]
  | .optT (some v) :: rest, st => parse_args_go npos rest { st with input_channel := v }
  | .optR none :: _, _ => .err parseFailRc [usageMsg]
  | .optR (some v) :: rest, st => parse_args_go npos rest { st with output_channel := v }
  | .optS none :: _, _ => .err parseFailRc [usageMsg]
  | .optS (some v) :: rest, st =>
      parse_args_go npos rest { st with output_size := v, s_specified := true }
  | .optO none :: _, _ => .err parseFailRc [usageMsg]
  | .optO (some v) :: rest, st =>
      parse_args_go npos rest { st with output_size := v, o_specified := true }
  | .optH :: _, _ => .helpExit (usageMsg :: helpLines)
  | .unknownOpt :: _, _ => .err (-EINVAL) [usageMsg]

/-- `parse_args` (demo.c lines 82-187): defaults are the `-1` sentinels and
cleared flags, then the option loop and the post-loop validation. -/
def parse_args (opts : List CmdArg) (npos : Nat) : ParseOutcome :=
  parse_args_go npos opts ⟨-1, -1, -1, false, false⟩

/-- Observable actions of one thread, in program order. -/
inductive Ev where
  | config
  | devInit (ok : Bool)
  | send (channel : Int) (nbytes : Int) (rc : Int)
  | recv (channel : Int) (len : Int)
  | spawnRecvTask (ok : Bool)
  | detachRecvTask
  | joinRecvTask
  | destroy
  | closeFd
  | sleepPace
  | out (s : String)
  | errOut (s : String)
  deriving DecidableEq

/-- Behavior of the external AXI DMA library and of `pthread_create` for one
run: whether `axidma_init` yields a handle, the channel lists the device
reports, the result code of the k-th `axidma0send`, the return value and
buffer contents of the k-th `axidma0read`, and whether thread creation
succeeds. -/
structure DmaEnv where
  initOk : Bool
  txChans : List Int
  rxChans : List Int
  sendRc : Nat → Int
  readLen : Nat → Int
  readByte : Nat → Nat → Nat
  spawnOk : Bool

/-- Channel resolution (demo.c lines 372-375 and 260-263): only when both
descriptor fields still hold the `-1` sentinel are they replaced by
`data[0]` of the respective channel set. -/
def resolveChannels (input_channel output_channel : Int) (tx rx : List Int) :
    Int × Int :=
  if input_channel == -1 && output_channel == -1 then (tx.headD 0, rx.headD 0)
  else (input_channel, output_channel)

/-- Functional view of one `unsigned char` store: assignment truncates the
written value mod 256. -/
def storeByte (buf : Nat → Nat) (i v : Nat) : Nat → Nat :=
  fun j => if j = i then v % 256 else buf j

/-- `sbuffer` after the first `n` iterations of the init loop
(demo.c lines 320-323), starting from the zero-initialized static array
(demo.c line 44). -/
def sbufferInit : Nat → (Nat → Nat)
  | 0 => fun _ => 0
  | n + 1 => storeByte (sbufferInit n) n n

/-- The send staging buffer as it stands after the init loop; it is written
once before any transfer and never written again. -/
def sbuffer : Nat → Nat := sbufferInit 2000

/-- Two-digit `%02x` rendering of a byte value as printed by the dump loop
(demo.c line 274); `Nat.digitChar` yields lowercase hex digits.  Only ever
applied to values of an `unsigned char` array, hence below 256. -/
def hex2 (v : Nat) : String :=
  String.mk [Nat.digitChar (v / 16), Nat.digitChar (v % 16)]

/-- One printed token of the hex dump: `0x`, two hex digits, a space. -/
def hexTok (v : Nat) : String := "0x" ++ hex2 v ++ " "

/-- Output of the dump loop (demo.c lines 268-275) after its first `n`
iterations: a newline is printed before every token whose index is a
multiple of 16, then the token itself. -/
def hexDumpOut (buf : Nat → Nat) : Nat → List String
  | 0 => []
  | n + 1 => hexDumpOut buf n ++ (if n % 16 = 0 then ["\n"] else []) ++ [hexTok (buf n)]

/-- Everything one iteration of the receive loop prints (demo.c lines
266-275): the `rec_len` line — note the literal `0x` prefix in front of a
decimal `%d` rendering — followed by the dump of `rec_len` bytes (a
negative return dumps nothing, as the `for` condition fails at once). -/
def recvIterationOut (rec_len : Int) (buf : Nat → Nat) : List String :=
  ("\nrec_len = 0x" ++ toString rec_len ++ "\n") :: hexDumpOut buf rec_len.toNat

/-- The transfer summary and the fixed send sequence of `main`
(demo.c lines 334-398) when parsing succeeded, init succeeded and both
channel sets are non-empty: three sends of 1000, 2000 and 1800 bytes on the
resolved transmit channel, with pacing sleeps, and no check of any send's
result between sends. -/
def sendPhase (env : DmaEnv) (tc rcv : Int) : List Ev :=
  [Ev.config, Ev.devInit true, Ev.out initOkMsg,
   Ev.out "AXI DMA File Transfer Info:\n",
   Ev.out ("\tTransmit Channel: " ++ toString tc ++ "\n"),
   Ev.out ("\tReceive Channel: " ++ toString rcv ++ "\n"),
   Ev.out sizesMsg,
   Ev.send tc 1000 (env.sendRc 0), Ev.out "success send axidma0\n",
   Ev.sleepPace, Ev.sleepPace, Ev.send tc 2000 (env.sendRc 1),
   Ev.sleepPace, Ev.send tc 1800 (env.sendRc 2)]

/-- Trace semantics of `main` (demo.c lines 299-470): exit code and the
ordered observable actions of the primary thread.  The pre-parse glue
(`axidma_config`, the `XDma_Out32` register write, the `sbuffer` init loop)
precedes argument parsing exactly as in the source and is summarized by the
`config` event; note that a `pthread_create` failure returns `-1` directly,
skipping `axidma_destroy` and the `close` (demo.c lines 455-459). -/
def mainRun (env : DmaEnv) (opts : List CmdArg) (npos : Nat) : Int × List Ev :=
  match parse_args opts npos with
  | .helpExit outLines => (0, Ev.config :: outLines.map Ev.out)
  | .err _ errLines => (1, Ev.config :: errLines.map Ev.errOut)
  | .ok ic oc _osz =>
    if env.initOk = false then
      (1, [Ev.config, Ev.devInit false, Ev.errOut initFailMsg, Ev.closeFd])
    else if env.txChans.length < 1 then
      (-ENODEV, [Ev.config, Ev.devInit true, Ev.out initOkMsg,
                 Ev.errOut noTxMsg, Ev.destroy, Ev.closeFd])
    else if env.rxChans.length < 1 then
      (-ENODEV, [Ev.config, Ev.devInit true, Ev.out initOkMsg,
                 Ev.errOut noRxMsg, Ev.destroy, Ev.closeFd])
    else
      let tc := (resolveChannels ic oc env.txChans env.rxChans).1
      let rcv := (resolveChannels ic oc env.txChans env.rxChans).2
      if env.spawnOk = false then
        (-1, sendPhase env tc rcv ++
             [Ev.spawnRecvTask false, Ev.out "pthreadrx_create fail\n"])
      else
        ((if env.sendRc 2 < 0 then -(env.sendRc 2) else 0),
         sendPhase env tc rcv ++
           [Ev.spawnRecvTask true, Ev.detachRecvTask, Ev.destroy, Ev.closeFd])

/-- Trace semantics of the receive task `rapidio_taks_rec` up to the point
where it enters its unbounded `while(1)` loop (demo.c lines 190-263): the
same glue, parsing, device init — a second `axidma_init` call of its own —
and channel resolution as `main`, duplicated verbatim in the source.
Returns the receive channel the loop will read on (`none` when the loop is
never entered) together with the trace so far. -/
def recvPrelude (env : DmaEnv) (opts : List CmdArg) (npos : Nat) :
    Option Int × List Ev :=
  match parse_args opts npos with
  | .helpExit outLines => (none, Ev.config :: outLines.map Ev.out)
  | .err _ errLines => (none, Ev.config :: errLines.map Ev.errOut)
  | .ok ic oc _osz =>
    if env.initOk = false then
      (none, [Ev.config, Ev.devInit false, Ev.errOut initFailMsg, Ev.closeFd])
    else if env.txChans.length < 1 then
      (none, [Ev.config, Ev.devInit true, Ev.out initOkMsg,
              Ev.errOut noTxMsg, Ev.destroy, Ev.closeFd])
    else if env.rxChans.length < 1 then
      (none, [Ev.config, Ev.devInit true, Ev.out initOkMsg,
              Ev.errOut noRxMsg, Ev.destroy, Ev.closeFd])
    else
      (some (resolveChannels ic oc env.txChans env.rxChans).2,
       [Ev.config, Ev.devInit true, Ev.out initOkMsg])

/-- Events of iteration `k` of the receive loop (demo.c lines 264-279):
one blocking read, then the printed byte count and hex dump.  The received
bytes land in the `unsigned char` array `rbuffer`, hence the mod-256. -/
def recvIterEvents (env : DmaEnv) (ch : Int) (k : Nat) : List Ev :=
  Ev.recv ch (env.readLen k) ::
    (recvIterationOut (env.readLen k) (fun i => env.readByte k i % 256)).map Ev.out

/-- Receive-task trace after `k` completed loop iterations.  The loop body
never checks the read's result and contains no `break` or `return`, so the
task's device handle is destroyed only on the pre-loop error paths. -/
def recvRun (env : DmaEnv) (opts : List CmdArg) (npos : Nat) (k : Nat) :
    List Ev :=
  match recvPrelude env opts npos with
  | (none, tr) => tr
  | (some ch, tr) => tr ++ (List.range k).flatMap (recvIterEvents env ch)

/-- A concrete healthy library behavior: init succeeds, one channel in each
direction, every send succeeds, every read returns 0 bytes, thread creation
succeeds. -/
def env1 : DmaEnv :=
  { initOk := true, txChans := [0], rxChans := [0], sendRc := fun _ => 0,
    readLen := fun _ => 0, readByte := fun _ _ => 0, spawnOk := true }

/-- `env1` with the channel sets of the spec's worked example: transmit set
`[2, 3]`, receive set `[1, 4]`. -/
def env234 : DmaEnv := { env1 with txChans := [2, 3], rxChans := [1, 4] }

/-- `env1` with a failing first send (result code `-5`). -/
def envSendFail : DmaEnv := { env1 with sendRc := fun k => if k = 0 then -5 else 0 }

/-- True on send events. -/
def isSendEv : Ev → Bool
  | .send _ _ _ => true
  | _ => false

/-- True on successful handle acquisitions (`axidma_init` returning
non-NULL). -/
def isHandleEv : Ev → Bool
  | .devInit ok => ok
  | _ => false

/-- True on `axidma_destroy` events. -/
def isDestroyEv : Ev → Bool
  | .destroy => true
  | _ => false

/-- True on `pthread_create` events. -/
def isSpawnEv : Ev → Bool
  | .spawnRecvTask _ => true
  | _ => false

/-- Number of sends in a trace. -/
def sendCount (tr : List Ev) : Nat := (tr.filter isSendEv).length

/-- Number of device handles acquired in a trace. -/
def handleCount (tr : List Ev) : Nat := (tr.filter isHandleEv).length

/-- Number of device handles released in a trace. -/
def destroyCount (tr : List Ev) : Nat := (tr.filter isDestroyEv).length

/-- Number of hex-dump tokens (non-newline elements) in a printed list. -/
def dumpTokCount (l : List String) : Nat := (l.filter (fun s => s != "\n")).length

/-- Number of newlines in a printed list. -/
def dumpNlCount (l : List String) : Nat := (l.filter (fun s => s == "\n")).length

/-- Values of the `-t` occurrences of an argument list, in order. -/
def tVals (opts : List CmdArg) : List Int :=
  opts.filterMap fun a => match a with | .optT (some v) => some v | _ => none

/-- Values of the `-r` occurrences of an argument list, in order. -/
def rVals (opts : List CmdArg) : List Int :=
  opts.filterMap fun a => match a with | .optR (some v) => some v | _ => none

/-- Values of the `-s` occurrences of an argument list, in order. -/
def sVals (opts : List CmdArg) : List Int :=
  opts.filterMap fun a => match a with | .optS (some v) => some v | _ => none

/-- Values of the `-o` occurrences of an argument list, in order. -/
def oVals (opts : List CmdArg) : List Int :=
  opts.filterMap fun a => match a with | .optO (some v) => some v | _ => none

/-- A recognized option with a well-formed value: not `-h`, not an unknown
option, and the numeric argument parses. -/
def wfOpt : CmdArg → Bool
  | .optT (some _) => true
  | .optR (some _) => true
  | .optS (some _) => true
  | .optO (some _) => true
  | _ => false

/-- Every option of the vector is recognized and has a well-formed value. -/
def wfOpts (opts : List CmdArg) : Bool := opts.all wfOpt

/-- Effect of one well-formed option on the parser state; on anything else
(help, unknown, malformed value — cases the wf lemma excludes) it is the
identity. -/
def applyOpt (st : ArgState) : CmdArg → ArgState
  | .optT (some v) => { st with input_channel := v }
  | .optR (some v) => { st with output_channel := v }
  | .optS (some v) => { st with output_size := v, s_specified := true }
  | .optO (some v) => { st with output_size := v, o_specified := true }
  | _ => st

/-!
Helper lemmas shared by the claim theorems.
-/

/-- A filter whose predicate rejects every element of a list has length 0. -/
lemma filter_length_zero {α : Type} (p : α → Bool) (l : List α)
    (h : ∀ e ∈ l, p e = false) : (l.filter p).length = 0 := by
  have hnil : l.filter p = [] := by
    rw [List.filter_eq_nil_iff]
    intro a ha
    simp [h a ha]
  rw [hnil]
  rfl

/-- Event counts over a trace made of the `config` event followed by mapped
output lines are zero for any predicate rejecting both shapes. -/
lemma count_cons_map_zero {α : Type} (p : Ev → Bool) (f : α → Ev)
    (msgs : List α) (h0 : p Ev.config = false) (h1 : ∀ s, p (f s) = false) :
    ((Ev.config :: msgs.map f).filter p).length = 0 := by
  apply filter_length_zero
  intro e he
  rcases List.mem_cons.mp he with h | h
  · rw [h, h0]
  · obtain ⟨s, _, rfl⟩ := List.mem_map.mp h
    exact h1 s

/-- When parsing fails, `main` returns 1 and its trace is the pre-parse glue
plus the stderr diagnostics: no device interaction at all. -/
lemma mainRun_parse_err (env : DmaEnv) (opts : List CmdArg) (npos : Nat)
    (rc : Int) (msgs : List String) (h : parse_args opts npos = .err rc msgs) :
    mainRun env opts npos = (1, Ev.config :: msgs.map Ev.errOut) := by
  simp [mainRun, h]

/-- The happy path of `main`: parsing, init and channel discovery succeed
and so does thread creation. -/
lemma mainRun_success (env : DmaEnv) (opts : List CmdArg) (npos : Nat)
    (ic oc osz : Int) (hp : parse_args opts npos = .ok ic oc osz)
    (h1 : env.initOk = true) (h2 : 1 ≤ env.txChans.length)
    (h3 : 1 ≤ env.rxChans.length) (h4 : env.spawnOk = true) :
    mainRun env opts npos =
      ((if env.sendRc 2 < 0 then -(env.sendRc 2) else 0),
       sendPhase env (resolveChannels ic oc env.txChans env.rxChans).1
         (resolveChannels ic oc env.txChans env.rxChans).2 ++
         [Ev.spawnRecvTask true, Ev.detachRecvTask, Ev.destroy, Ev.closeFd]) := by
  have htx : ¬ (env.txChans.length < 1) := by omega
  have hrx : ¬ (env.rxChans.length < 1) := by omega
  simp [mainRun, hp, h1, h4, htx, hrx]

/-- On a vector of well-formed options the getopt loop is a fold of
`applyOpt` followed by the post-loop validation. -/
lemma parse_args_go_wf (npos : Nat) (opts : List CmdArg) :
    ∀ st : ArgState, wfOpts opts = true →
      parse_args_go npos opts st = endCheck npos (opts.foldl applyOpt st) := by
  induction opts with
  | nil => intro st _; rfl
  | cons a rest ih =>
    intro st h
    simp only [wfOpts, List.all_cons, Bool.and_eq_true] at h
    obtain ⟨ha, hrest⟩ := h
    have hrest' : wfOpts rest = true := hrest
    cases a with
    | optT v =>
      cases v with
      | none => simp [wfOpt] at ha
      | some w =>
        simpa [parse_args_go, applyOpt] using ih { st with input_channel := w } hrest'
    | optR v =>
      cases v with
      | none => simp [wfOpt] at ha
      | some w =>
        simpa [parse_args_go, applyOpt] using ih { st with output_channel := w } hrest'
    | optS v =>
      cases v with
      | none => simp [wfOpt] at ha
      | some w =>
        simpa [parse_args_go, applyOpt] using
          ih { st with output_size := w, s_specified := true } hrest'
    | optO v =>
      cases v with
      | none => simp [wfOpt] at ha
      | some w =>
        simpa [parse_args_go, applyOpt] using
          ih { st with output_size := w, o_specified := true } hrest'
    | optH => simp [wfOpt] at ha
    | unknownOpt => simp [wfOpt] at ha

/-- The folded state's transmit channel is the last `-t` value, or the
start value when `-t` never occurs with a parsed value. -/
lemma foldl_input_channel (opts : List CmdArg) :
    ∀ st : ArgState, (opts.foldl applyOpt st).input_channel =
      (tVals opts).getLastD st.input_channel := by
  induction opts with
  | nil => intro st; rfl
  | cons a rest ih =>
    intro st
    cases a with
    | optT v =>
      cases v with
      | none => exact ih st
      | some w =>
        change (rest.foldl applyOpt { st with input_channel := w }).input_channel =
          (w :: tVals rest).getLastD st.input_channel
        rw [List.getLastD_cons]
        exact ih { st with input_channel := w }
    | optR v =>
      cases v with
      | none => exact ih st
      | some w => exact ih { st with output_channel := w }
    | optS v =>
      cases v with
      | none => exact ih st
      | some w => exact ih { st with output_size := w, s_specified := true }
    | optO v =>
      cases v with
      | none => exact ih st
      | some w => exact ih { st with output_size := w, o_specified := true }
    | optH => exact ih st
    | unknownOpt => exact ih st

/-- The folded state's receive channel is the last `-r` value, or the start
value when `-r` never occurs with a parsed value. -/
lemma foldl_output_channel (opts : List CmdArg) :
    ∀ st : ArgState, (opts.foldl applyOpt st).output_channel =
      (rVals opts).getLastD st.output_channel := by
  induction opts with
  | nil => intro st; rfl
  | cons a rest ih =>
    intro st
    cases a with
    | optT v =>
      cases v with
      | none => exact ih st
      | some w => exact ih { st with input_channel := w }
    | optR v =>
      cases v with
      | none => exact ih st
      | some w =>
        change (rest.foldl applyOpt { st with output_channel := w }).output_channel =
          (w :: rVals rest).getLastD st.output_channel
        rw [List.getLastD_cons]
        exact ih { st with output_channel := w }
    | optS v =>
      cases v with
      | none => exact ih st
      | some w => exact ih { st with output_size := w, s_specified := true }
    | optO v =>
      cases v with
      | none => exact ih st
      | some w => exact ih { st with output_size := w, o_specified := true }
    | optH => exact ih st
    | unknownOpt => exact ih st

/-- The folded state's `-s` flag is set exactly when it started set or some
`-s` occurrence carries a parsed value. -/
lemma foldl_s_specified (opts : List CmdArg) :
    ∀ st : ArgState, (opts.foldl applyOpt st).s_specified =
      (st.s_specified || !(sVals opts).isEmpty) := by
  induction opts with
  | nil => intro st; simp [sVals]
  | cons a rest ih =>
    intro st
    cases a with
    | optT v =>
      cases v with
      | none => simpa [sVals, List.filterMap_cons, applyOpt] using ih st
      | some w =>
        simpa [sVals, List.filterMap_cons, applyOpt] using
          ih { st with input_channel := w }
    | optR v =>
      cases v with
      | none => simpa [sVals, List.filterMap_cons, applyOpt] using ih st
      | some w =>
        simpa [sVals, List.filterMap_cons, applyOpt] using
          ih { st with output_channel := w }
    | optS v =>
      cases v with
      | none => simpa [sVals, List.filterMap_cons, applyOpt] using ih st
      | some w =>
        simp [sVals, List.filterMap_cons, applyOpt,
          ih { st with output_size := w, s_specified := true }]
    | optO v =>
      cases v with
      | none => simpa [sVals, List.filterMap_cons, applyOpt] using ih st
      | some w =>
        simpa [sVals, List.filterMap_cons, applyOpt] using
          ih { st with output_size := w, o_specified := true }
    | optH => simpa [sVals, List.filterMap_cons, applyOpt] using ih st
    | unknownOpt => simpa [sVals, List.filterMap_cons, applyOpt] using ih st

/-- The folded state's `-o` flag is set exactly when it started set or some
`-o` occurrence carries a parsed value. -/
lemma foldl_o_specified (opts : List CmdArg) :
    ∀ st : ArgState, (opts.foldl applyOpt st).o_specified =
      (st.o_specified || !(oVals opts).isEmpty) := by
  induction opts with
  | nil => intro st; simp [oVals]
  | cons a rest ih =>
    intro st
    cases a with
    | optT v =>
      cases v with
      | none => simpa [oVals, List.filterMap_cons, applyOpt] using ih st
      | some w =>
        simpa [oVals, List.filterMap_cons, applyOpt] using
          ih { st with input_channel := w }
    | optR v =>
      cases v with
      | none => simpa [oVals, List.filterMap_cons, applyOpt] using ih st
      | some w =>
        simpa [oVals, List.filterMap_cons, applyOpt] using
          ih { st with output_channel := w }
    | optS v =>
      cases v with
      | none => simpa [oVals, List.filterMap_cons, applyOpt] using ih st
      | some w =>
        simpa [oVals, List.filterMap_cons, applyOpt] using
          ih { st with output_size := w, s_specified := true }
    | optO v =>
      cases v with
      | none => simpa [oVals, List.filterMap_cons, applyOpt] using ih st
      | some w =>
        simp [oVals, List.filterMap_cons, applyOpt,
          ih { st with output_size := w, o_specified := true }]
    | optH => simpa [oVals, List.filterMap_cons, applyOpt] using ih st
    | unknownOpt => simpa [oVals, List.filterMap_cons, applyOpt] using ih st

/-- When both `-s` and `-o` were seen, the post-loop validation always
fails: either the channel-pairing check fires first or the exclusivity
check does. -/
lemma endCheck_so (npos : Nat) (st : ArgState) (hs : st.s_specified = true)
    (ho : st.o_specified = true) :
    endCheck npos st = .err (-EINVAL) [pairErrMsg, usageMsg] ∨
    endCheck npos st = .err (-EINVAL) [exclErrMsg, usageMsg] := by
  rw [endCheck]
  by_cases h : Bool.xor (st.input_channel == -1) (st.output_channel == -1) = true
  · left
    rw [if_pos h]
  · right
    rw [if_neg h, hs, ho]
    rfl

/-- Only the trailing-argument check of the post-loop validation looks at
the number of unconsumed positionals: a vector accepted with none is
accepted with up to two and rejected from three on. -/
lemma parse_args_go_npos (opts : List CmdArg) :
    ∀ (st : ArgState) (ic oc osz : Int),
      parse_args_go 0 opts st = .ok ic oc osz →
      ∀ npos : Nat, parse_args_go npos opts st =
        if 2 < npos then .err (-EINVAL) [tooManyErrMsg, usageMsg]
        else .ok ic oc osz := by
  induction opts with
  | nil =>
    intro st ic oc osz h npos
    have e0 : parse_args_go 0 ([] : List CmdArg) st = endCheck 0 st := rfl
    have en : parse_args_go npos ([] : List CmdArg) st = endCheck npos st := rfl
    rw [e0, endCheck] at h
    rw [en, endCheck]
    by_cases h1 : Bool.xor (st.input_channel == -1) (st.output_channel == -1) = true
    · rw [if_pos h1] at h
      exact ParseOutcome.noConfusion h
    · rw [if_neg h1] at h
      rw [if_neg h1]
      by_cases h2 : (st.s_specified && st.o_specified) = true
      · rw [if_pos h2] at h
        exact ParseOutcome.noConfusion h
      · rw [if_neg h2] at h
        rw [if_neg h2]
        have h3 : ¬ (2 < 0) := by omega
        rw [if_neg h3] at h
        rw [h]
  | cons a rest ih =>
    intro st ic oc osz h npos
    cases a with
    | optT v =>
      cases v with
      | none => exact ParseOutcome.noConfusion h
      | some w => exact ih { st with input_channel := w } ic oc osz h npos
    | optR v =>
      cases v with
      | none => exact ParseOutcome.noConfusion h
      | some w => exact ih { st with output_channel := w } ic oc osz h npos
    | optS v =>
      cases v with
      | none => exact ParseOutcome.noConfusion h
      | some w =>
        exact ih { st with output_size := w, s_specified := true } ic oc osz h npos
    | optO v =>
      cases v with
      | none => exact ParseOutcome.noConfusion h
      | some w =>
        exact ih { st with output_size := w, o_specified := true } ic oc osz h npos
    | optH => exact ParseOutcome.noConfusion h
    | unknownOpt => exact ParseOutcome.noConfusion h

/-!
Claim theorems.
-/

/-- C9: before any send is issued, the send staging buffer's first 2000
bytes satisfy `sbuffer[index] = index mod 256`, established once by the
init loop (demo.c lines 320-323); the buffer is never written again. -/
theorem sbuffer_pattern (i : Nat) (h : i < 2000) : sbuffer i = i % 256 := by
  have key : ∀ n : Nat, ∀ j : Nat, j < n → sbufferInit n j = j % 256 := by
    intro n
    induction n with
    | zero => intro j hj; omega
    | succ k ih =>
      intro j hj
      by_cases hjk : j = k
      · subst hjk
        simp [sbufferInit, storeByte]
      · have hlt : j < k := by omega
        simpa [sbufferInit, storeByte, hjk] using ih j hlt
  exact key 2000 i h

/-- Witness for `sbuffer_pattern` at index 1999. -/
theorem sbuffer_pattern_witness : 1999 < 2000 ∧ sbuffer 1999 = 1999 % 256 :=
  ⟨by decide, sbuffer_pattern 1999 (by decide)⟩

/-- C4: when both descriptor fields still hold the `-1` sentinel (no `-t`
and `-r` override), channel resolution (demo.c lines 372-375) assigns the
first element of each device-reported set; concretely, with transmit set
`[2, 3]` and receive set `[1, 4]` and an empty argument vector, `main`
prints transmit channel 2 and receive channel 1 and sends on channel 2. -/
theorem default_channel_policy (t r : Int) (tx' rx' : List Int) :
    resolveChannels (-1) (-1) (t :: tx') (r :: rx') = (t, r) ∧
    Ev.out "\tTransmit Channel: 2\n" ∈ (mainRun env234 [] 0).2 ∧
    Ev.out "\tReceive Channel: 1\n" ∈ (mainRun env234 [] 0).2 ∧
    Ev.send 2 1000 0 ∈ (mainRun env234 [] 0).2 := by
  refine ⟨rfl, ?_, ?_, ?_⟩ <;> decide

/-- C10: the explicit override `-t -1 -r -1` parses successfully and the
resulting descriptor is indistinguishable from no override at all: the
parse result equals that of the empty vector (both channel fields the `-1`
unset sentinel), the whole run is identical, and channel resolution then
silently applies the default lowest-numbered policy (channel 2 of transmit
set `[2, 3]`) instead of the user's explicit `-1`. -/
theorem minus_one_override_indistinguishable :
    parse_args [CmdArg.optT (some (-1)), CmdArg.optR (some (-1))] 0 =
      parse_args [] 0 ∧
    parse_args [] 0 = .ok (-1) (-1) (-1) ∧
    mainRun env234 [CmdArg.optT (some (-1)), CmdArg.optR (some (-1))] 0 =
      mainRun env234 [] 0 ∧
    Ev.out "\tTransmit Channel: 2\n" ∈
      (mainRun env234 [CmdArg.optT (some (-1)), CmdArg.optR (some (-1))] 0).2 := by
  refine ⟨?_, ?_, ?_, ?_⟩ <;> decide

/-- C6 counterexample: the vector `-t -1` supplies exactly one of `-t`/`-r`
with a value that parses, yet validation succeeds — the pairing check
(demo.c line 155) compares the parsed values against the `-1` sentinel, not
whether the options were supplied — and the run proceeds to issue all three
sends. -/
theorem lone_t_minus_one_accepted :
    parse_args [CmdArg.optT (some (-1))] 0 = .ok (-1) (-1) (-1) ∧
    sendCount ((mainRun env1 [CmdArg.optT (some (-1))] 0).2) = 3 := by
  refine ⟨?_, ?_⟩ <;> decide

/-- C6 amended: for vectors of recognized, well-parsing options without
`-h` (which exits 0 before validation) in which exactly one of `-t`/`-r`
occurs and the last occurrence's value differs from the `-1` sentinel,
validation fails: the pairing diagnostic and usage go to stderr, the
negative code `-EINVAL` is returned, and `main` attempts no transfer (no
device init and no send). -/
theorem lone_channel_override_rejected (opts : List CmdArg) (npos : Nat)
    (v : Int) (env : DmaEnv) (hwf : wfOpts opts = true)
    (hone : (rVals opts = [] ∧ (tVals opts).getLast? = some v ∧ v ≠ -1) ∨
            (tVals opts = [] ∧ (rVals opts).getLast? = some v ∧ v ≠ -1)) :
    parse_args opts npos = .err (-EINVAL) [pairErrMsg, usageMsg] ∧
    (-EINVAL : Int) < 0 ∧
    sendCount ((mainRun env opts npos).2) = 0 ∧
    handleCount ((mainRun env opts npos).2) = 0 := by
  have hgo := parse_args_go_wf npos opts ⟨-1, -1, -1, false, false⟩ hwf
  have hin := foldl_input_channel opts ⟨-1, -1, -1, false, false⟩
  have hout := foldl_output_channel opts ⟨-1, -1, -1, false, false⟩
  have hparse : parse_args opts npos = .err (-EINVAL) [pairErrMsg, usageMsg] := by
    rw [parse_args, hgo, endCheck]
    rcases hone with ⟨hr, ht, hv⟩ | ⟨ht, hr, hv⟩
    · have hi : (opts.foldl applyOpt ⟨-1, -1, -1, false, false⟩).input_channel = v := by
        rw [hin, List.getLastD_eq_getLast?, ht]
        rfl
      have ho : (opts.foldl applyOpt ⟨-1, -1, -1, false, false⟩).output_channel = -1 := by
        rw [hout, hr]
        rfl
      have hxor : Bool.xor
          ((opts.foldl applyOpt ⟨-1, -1, -1, false, false⟩).input_channel == -1)
          ((opts.foldl applyOpt ⟨-1, -1, -1, false, false⟩).output_channel == -1) = true := by
        rw [hi, ho, beq_eq_false_iff_ne.mpr hv]
        rfl
      rw [if_pos hxor]
    · have hi : (opts.foldl applyOpt ⟨-1, -1, -1, false, false⟩).input_channel = -1 := by
        rw [hin, ht]
        rfl
      have ho : (opts.foldl applyOpt ⟨-1, -1, -1, false, false⟩).output_channel = v := by
        rw [hout, List.getLastD_eq_getLast?, hr]
        rfl
      have hxor : Bool.xor
          ((opts.foldl applyOpt ⟨-1, -1, -1, false, false⟩).input_channel == -1)
          ((opts.foldl applyOpt ⟨-1, -1, -1, false, false⟩).output_channel == -1) = true := by
        rw [hi, ho, beq_eq_false_iff_ne.mpr hv]
        rfl
      rw [if_pos hxor]
  refine ⟨hparse, by decide, ?_, ?_⟩
  · rw [mainRun_parse_err env opts npos _ _ hparse]
    exact count_cons_map_zero isSendEv Ev.errOut _ rfl (fun s => rfl)
  · rw [mainRun_parse_err env opts npos _ _ hparse]
    exact count_cons_map_zero isHandleEv Ev.errOut _ rfl (fun s => rfl)

/-- Witness for `lone_channel_override_rejected` at the vector `-t 5`. -/
theorem lone_channel_override_rejected_witness :
    parse_args [CmdArg.optT (some 5)] 0 = .err (-EINVAL) [pairErrMsg, usageMsg] ∧
    (-EINVAL : Int) < 0 ∧
    sendCount ((mainRun env1 [CmdArg.optT (some 5)] 0).2) = 0 ∧
    handleCount ((mainRun env1 [CmdArg.optT (some 5)] 0).2) = 0 :=
  lone_channel_override_rejected [CmdArg.optT (some 5)] 0 5 env1 (by decide)
    (Or.inl ⟨rfl, rfl, by decide⟩)

/-- C7: for every vector of recognized, well-parsing options supplying both
`-s` and `-o`, in whatever order and however interleaved (`-h` excluded: it
exits 0 with help before any validation, demo.c line 146), validation
fails: a diagnostic and usage are printed to stderr — via the exclusivity
check of demo.c line 163, unless the channel-pairing check fires first —
the negative code `-EINVAL` is returned, and `main` attempts no transfer. -/
theorem s_and_o_mutually_exclusive (opts : List CmdArg) (npos : Nat)
    (env : DmaEnv) (hwf : wfOpts opts = true) (hs : sVals opts ≠ [])
    (ho : oVals opts ≠ []) :
    (parse_args opts npos = .err (-EINVAL) [pairErrMsg, usageMsg] ∨
     parse_args opts npos = .err (-EINVAL) [exclErrMsg, usageMsg]) ∧
    (-EINVAL : Int) < 0 ∧
    sendCount ((mainRun env opts npos).2) = 0 ∧
    handleCount ((mainRun env opts npos).2) = 0 := by
  have hgo := parse_args_go_wf npos opts ⟨-1, -1, -1, false, false⟩ hwf
  have hss := foldl_s_specified opts ⟨-1, -1, -1, false, false⟩
  have hos := foldl_o_specified opts ⟨-1, -1, -1, false, false⟩
  obtain ⟨x, xs, hsx⟩ := List.exists_cons_of_ne_nil hs
  obtain ⟨y, ys, hoy⟩ := List.exists_cons_of_ne_nil ho
  have hstrue : (opts.foldl applyOpt ⟨-1, -1, -1, false, false⟩).s_specified = true := by
    rw [hss, hsx]
    rfl
  have hotrue : (opts.foldl applyOpt ⟨-1, -1, -1, false, false⟩).o_specified = true := by
    rw [hos, hoy]
    rfl
  have hparse : parse_args opts npos = .err (-EINVAL) [pairErrMsg, usageMsg] ∨
      parse_args opts npos = .err (-EINVAL) [exclErrMsg, usageMsg] := by
    rw [parse_args, hgo]
    exact endCheck_so npos _ hstrue hotrue
  refine ⟨hparse, by decide, ?_, ?_⟩
  · rcases hparse with hp | hp <;>
      rw [mainRun_parse_err env opts npos _ _ hp] <;>
      exact count_cons_map_zero isSendEv Ev.errOut _ rfl (fun s => rfl)
  · rcases hparse with hp | hp <;>
      rw [mainRun_parse_err env opts npos _ _ hp] <;>
      exact count_cons_map_zero isHandleEv Ev.errOut _ rfl (fun s => rfl)

/-- Witness for `s_and_o_mutually_exclusive` at the vector `-s 1 -o 2`. -/
theorem s_and_o_mutually_exclusive_witness :
    (parse_args [CmdArg.optS (some 1), CmdArg.optO (some 2)] 0 =
       .err (-EINVAL) [pairErrMsg, usageMsg] ∨
     parse_args [CmdArg.optS (some 1), CmdArg.optO (some 2)] 0 =
       .err (-EINVAL) [exclErrMsg, usageMsg]) ∧
    (-EINVAL : Int) < 0 ∧
    sendCount ((mainRun env1 [CmdArg.optS (some 1), CmdArg.optO (some 2)] 0).2) = 0 ∧
    handleCount ((mainRun env1 [CmdArg.optS (some 1), CmdArg.optO (some 2)] 0).2) = 0 :=
  s_and_o_mutually_exclusive [CmdArg.optS (some 1), CmdArg.optO (some 2)] 0 env1
    (by decide) (by decide) (by decide)

/-- C8: the trailing-positional check is the only validation that depends
on the number of unconsumed tokens, and its allowance is fixed at two
(`optind < argc - 2`, demo.c line 177): a vector that validates with no
trailing tokens still validates with one or two and fails with the
too-many-arguments diagnostic, usage and `-EINVAL` from three on. -/
theorem trailing_arg_allowance (opts : List CmdArg) (npos : Nat)
    (ic oc osz : Int) (h : parse_args opts 0 = .ok ic oc osz) :
    parse_args opts npos =
      if 2 < npos then .err (-EINVAL) [tooManyErrMsg, usageMsg]
      else .ok ic oc osz :=
  parse_args_go_npos opts _ ic oc osz h npos

/-- Witness for `trailing_arg_allowance`: the empty option vector with
three trailing tokens. -/
theorem trailing_arg_allowance_witness :
    parse_args [] 3 =
      if 2 < 3 then ParseOutcome.err (-EINVAL) [tooManyErrMsg, usageMsg]
      else ParseOutcome.ok (-1) (-1) (-1) :=
  trailing_arg_allowance [] 3 (-1) (-1) (-1) (by decide)

/-- Every dump token renders as exactly five characters: `0x`, two hex
digits, one space. -/
lemma hexTok_length (v : Nat) : (hexTok v).length = 5 := rfl

/-- A dump token is never the bare newline separator. -/
lemma hexTok_beq_newline (v : Nat) : (hexTok v == "\n") = false := by
  apply beq_eq_false_iff_ne.mpr
  intro h
  have h5 : (hexTok v).length = 5 := rfl
  rw [h] at h5
  exact absurd h5 (by decide)

/-- Boolean-not form of `hexTok_beq_newline` for the token filter. -/
lemma hexTok_bne_newline (v : Nat) : (hexTok v != "\n") = true := by
  rw [bne, hexTok_beq_newline v]
  rfl

/-- The dump loop prints exactly one token per received byte. -/
lemma dumpTokCount_hexDumpOut (buf : Nat → Nat) (n : Nat) :
    dumpTokCount (hexDumpOut buf n) = n := by
  induction n with
  | zero => rfl
  | succ k ih =>
    rw [hexDumpOut]
    by_cases hk : k % 16 = 0
    · rw [if_pos hk]
      simp [dumpTokCount, List.filter_append, hexTok_bne_newline] at ih ⊢
      omega
    · rw [if_neg hk]
      simp [dumpTokCount, List.filter_append, hexTok_bne_newline] at ih ⊢
      omega

/-- The dump loop prints one newline before every sixteenth token, so after
`n` tokens it has printed exactly the ceiling of `n / 16` newlines. -/
lemma dumpNlCount_hexDumpOut (buf : Nat → Nat) (n : Nat) :
    dumpNlCount (hexDumpOut buf n) = (n + 15) / 16 := by
  induction n with
  | zero => rfl
  | succ k ih =>
    rw [hexDumpOut]
    by_cases hk : k % 16 = 0
    · rw [if_pos hk]
      simp [dumpNlCount, List.filter_append, hexTok_beq_newline] at ih ⊢
      omega
    · rw [if_neg hk]
      simp [dumpNlCount, List.filter_append, hexTok_beq_newline] at ih ⊢
      omega

/-- Every element the dump loop prints is either the newline separator or a
five-character token (`0x` plus exactly two hex digits plus a space). -/
lemma hexDumpOut_shape (buf : Nat → Nat) (n : Nat) :
    ∀ s ∈ hexDumpOut buf n, s = "\n" ∨ s.length = 5 := by
  induction n with
  | zero => intro s hs; cases hs
  | succ k ih =>
    intro s hs
    rw [hexDumpOut] at hs
    rcases List.mem_append.mp hs with hs' | hs'
    · rcases List.mem_append.mp hs' with hs'' | hs''
      · exact ih s hs''
      · left
        by_cases hk : k % 16 = 0
        · rw [if_pos hk] at hs''
          simpa using hs''
        · rw [if_neg hk] at hs''
          cases hs''
    · right
      have : s = hexTok (buf k) := by simpa using hs'
      rw [this]
      rfl

/-- C5: for a receive completion returning exactly `N` bytes, `N ≤ 2048`,
one iteration of the receive loop (demo.c lines 264-275) prints first the
byte-count line carrying exactly `N` — rendered in decimal by `%d`, albeit
behind a literal `0x` prefix — and then a hex dump holding exactly `N`
two-digit hex byte tokens (each `0x` + two lowercase hex digits + space,
five characters), with a newline before every sixteenth token, i.e. sixteen
tokens per full line; the byte values are those of the `unsigned char`
receive buffer, hence the mod 256. -/
theorem recv_print_reflects_count (N : Nat) (b : Nat → Nat) (_hN : N ≤ 2048) :
    (recvIterationOut (N : Int) (fun i => b i % 256)).head? =
      some ("\nrec_len = 0x" ++ toString (N : Int) ++ "\n") ∧
    dumpTokCount ((recvIterationOut (N : Int) (fun i => b i % 256)).tail) = N ∧
    (∀ m : Nat, m ≤ N →
      dumpNlCount (hexDumpOut (fun i => b i % 256) m) = (m + 15) / 16) ∧
    (∀ s ∈ (recvIterationOut (N : Int) (fun i => b i % 256)).tail,
      s = "\n" ∨ s.length = 5) := by
  refine ⟨rfl, ?_, ?_, ?_⟩
  · show dumpTokCount (hexDumpOut (fun i => b i % 256) ((N : Int)).toNat) = N
    exact dumpTokCount_hexDumpOut _ _
  · intro m _
    exact dumpNlCount_hexDumpOut _ m
  · intro s hs
    exact hexDumpOut_shape _ _ s hs

/-- Witness for `recv_print_reflects_count` at a 20-byte receive of the
identity byte pattern. -/
theorem recv_print_reflects_count_witness :
    (20 : Nat) ≤ 2048 ∧
    ((recvIterationOut (20 : Int) (fun i => i % 256)).head? =
      some ("\nrec_len = 0x" ++ toString (20 : Int) ++ "\n") ∧
    dumpTokCount ((recvIterationOut (20 : Int) (fun i => i % 256)).tail) = 20 ∧
    (∀ m : Nat, m ≤ 20 →
      dumpNlCount (hexDumpOut (fun i => i % 256) m) = (m + 15) / 16) ∧
    (∀ s ∈ (recvIterationOut (20 : Int) (fun i => i % 256)).tail,
      s = "\n" ∨ s.length = 5)) :=
  ⟨by decide, recv_print_reflects_count 20 (fun i => i) (by decide)⟩

/-- C2 counterexample: with a library whose first send fails (result `-5`)
and an empty argument vector, `main` still issues all three sends of its
fixed sequence — the source never inspects a send's result before the next
send (demo.c lines 390-398) — so a failing send does not abort the
sequence. -/
theorem failed_send_does_not_abort :
    Ev.send 0 1000 (-5) ∈ (mainRun envSendFail [] 0).2 ∧
    sendCount ((mainRun envSendFail [] 0).2) = 3 := by
  refine ⟨?_, ?_⟩ <;> decide

/-- C2 amended: whenever the send phase is reached, the primary thread
issues its fixed sequence of three sends unconditionally, regardless of
individual send results; only the third send's status is reflected in the
exit code (negated when negative, demo.c line 461). -/
theorem send_sequence_unconditional (env : DmaEnv) (opts : List CmdArg)
    (npos : Nat) (ic oc osz : Int) (hp : parse_args opts npos = .ok ic oc osz)
    (h1 : env.initOk = true) (h2 : 1 ≤ env.txChans.length)
    (h3 : 1 ≤ env.rxChans.length) (h4 : env.spawnOk = true) :
    sendCount ((mainRun env opts npos).2) = 3 ∧
    (mainRun env opts npos).1 =
      (if env.sendRc 2 < 0 then -(env.sendRc 2) else 0) := by
  rw [mainRun_success env opts npos ic oc osz hp h1 h2 h3 h4]
  refine ⟨?_, rfl⟩
  simp [sendCount, sendPhase, isSendEv, List.filter_append]

/-- Witness for `send_sequence_unconditional` at the failing-first-send
library behavior. -/
theorem send_sequence_unconditional_witness :
    sendCount ((mainRun envSendFail [] 0).2) = 3 ∧
    (mainRun envSendFail [] 0).1 =
      (if envSendFail.sendRc 2 < 0 then -(envSendFail.sendRc 2) else 0) :=
  send_sequence_unconditional envSendFail [] 0 (-1) (-1) (-1) (by decide) rfl
    (by decide) (by decide) rfl

/-- C3: in every run that reaches the spawn of the receive task, all three
blocking sends of the fixed sequence occur strictly before the spawn event
(they all lie in the trace prefix preceding any `pthread_create`), the
spawned task is detached, and no join of the receive task ever occurs. -/
theorem sends_complete_before_spawn (env : DmaEnv) (opts : List CmdArg)
    (npos : Nat) (ic oc osz : Int) (hp : parse_args opts npos = .ok ic oc osz)
    (h1 : env.initOk = true) (h2 : 1 ≤ env.txChans.length)
    (h3 : 1 ≤ env.rxChans.length) (h4 : env.spawnOk = true) :
    sendCount (((mainRun env opts npos).2).takeWhile (fun e => !(isSpawnEv e))) = 3 ∧
    sendCount ((mainRun env opts npos).2) = 3 ∧
    Ev.spawnRecvTask true ∈ (mainRun env opts npos).2 ∧
    Ev.detachRecvTask ∈ (mainRun env opts npos).2 ∧
    Ev.joinRecvTask ∉ (mainRun env opts npos).2 := by
  rw [mainRun_success env opts npos ic oc osz hp h1 h2 h3 h4]
  refine ⟨?_, ?_, ?_, ?_, ?_⟩
  · simp [sendPhase, sendCount, isSendEv, isSpawnEv, List.takeWhile_append,
      List.takeWhile_cons, List.filter_append]
  · simp [sendPhase, sendCount, isSendEv, List.filter_append]
  · simp [sendPhase]
  · simp [sendPhase]
  · simp [sendPhase]

/-- Witness for `sends_complete_before_spawn` at the healthy library
behavior and an empty argument vector. -/
theorem sends_complete_before_spawn_witness :
    sendCount (((mainRun env1 [] 0).2).takeWhile (fun e => !(isSpawnEv e))) = 3 ∧
    sendCount ((mainRun env1 [] 0).2) = 3 ∧
    Ev.spawnRecvTask true ∈ (mainRun env1 [] 0).2 ∧
    Ev.detachRecvTask ∈ (mainRun env1 [] 0).2 ∧
    Ev.joinRecvTask ∉ (mainRun env1 [] 0).2 :=
  sends_complete_before_spawn env1 [] 0 (-1) (-1) (-1) (by decide) rfl
    (by decide) (by decide) rfl

/-- C1 counterexample: in a healthy run with both tasks started, the
process performs two successful `axidma_init` calls — one in `main`
(demo.c line 334) and a second inside the receive task (demo.c line 222) —
so two device handles exist and the transmit and receive paths do not
operate on one shared handle; moreover the receive task's handle is never
released while its unbounded loop runs (no destroy in its trace). -/
theorem two_handles_acquired :
    handleCount ((mainRun env1 [] 0).2) + handleCount (recvRun env1 [] 0 1) = 2 ∧
    ¬ (handleCount ((mainRun env1 [] 0).2) + handleCount (recvRun env1 [] 0 1) = 1) ∧
    destroyCount (recvRun env1 [] 0 1) = 0 := by
  refine ⟨?_, ?_, ?_⟩ <;> decide

/-- C1 amended: each of the two tasks acquires its own device handle (two
per process run when both start), and the primary thread's handle is
released exactly once on every exit path whenever thread creation succeeds
(the `pthread_create` failure path returns `-1` without the destroy,
demo.c lines 455-459, and is excluded); the receive task's handle is
released only on its pre-loop error paths, never from inside the loop. -/
theorem main_handle_released_once (env : DmaEnv) (opts : List CmdArg)
    (npos : Nat) (h4 : env.spawnOk = true) :
    destroyCount ((mainRun env opts npos).2) =
      handleCount ((mainRun env opts npos).2) ∧
    handleCount ((mainRun env opts npos).2) ≤ 1 := by
  cases hp : parse_args opts npos with
  | ok ic oc osz =>
    by_cases h1 : env.initOk = true
    · by_cases htx : env.txChans.length < 1
      · simp [mainRun, hp, h1, htx, handleCount, destroyCount, isHandleEv,
          isDestroyEv]
      · by_cases hrx : env.rxChans.length < 1
        · simp [mainRun, hp, h1, htx, hrx, handleCount, destroyCount,
            isHandleEv, isDestroyEv]
        · rw [mainRun_success env opts npos ic oc osz hp h1 (by omega) (by omega) h4]
          simp [sendPhase, handleCount, destroyCount, isHandleEv, isDestroyEv,
            List.filter_append]
    · have h1' : env.initOk = false := by
        cases henv : env.initOk
        · rfl
        · exact absurd henv h1
      simp [mainRun, hp, h1', handleCount, destroyCount, isHandleEv, isDestroyEv]
  | err rc msgs =>
    rw [mainRun_parse_err env opts npos rc msgs hp]
    constructor
    · show (List.filter isDestroyEv _).length = (List.filter isHandleEv _).length
      rw [count_cons_map_zero isDestroyEv Ev.errOut msgs rfl (fun s => rfl),
        count_cons_map_zero isHandleEv Ev.errOut msgs rfl (fun s => rfl)]
    · show (List.filter isHandleEv _).length ≤ 1
      rw [count_cons_map_zero isHandleEv Ev.errOut msgs rfl (fun s => rfl)]
      omega
  | helpExit outl =>
    have hm : mainRun env opts npos = (0, Ev.config :: outl.map Ev.out) := by
      simp [mainRun, hp]
    rw [hm]
    constructor
    · show (List.filter isDestroyEv _).length = (List.filter isHandleEv _).length
      rw [count_cons_map_zero isDestroyEv Ev.out outl rfl (fun s => rfl),
        count_cons_map_zero isHandleEv Ev.out outl rfl (fun s => rfl)]
    · show (List.filter isHandleEv _).length ≤ 1
      rw [count_cons_map_zero isHandleEv Ev.out outl rfl (fun s => rfl)]
      omega

/-- Witness for `main_handle_released_once` at the healthy library
behavior. -/
theorem main_handle_released_once_witness :
    destroyCount ((mainRun env1 [] 0).2) = handleCount ((mainRun env1 [] 0).2) ∧
    handleCount ((mainRun env1 [] 0).2) ≤ 1 :=
  main_handle_released_once env1 [] 0 rfl

end AxiDmaDemo
